import Mathlib

/-!
Shallow embedding of the Palworld server restart manager
(`src/restartmanager.py`, with the logger in `logging.py` treated as an
external collaborator).  Time is modelled as integer-second timestamps
(`Int`); Python `divmod` is floor division, which for the positive
divisors 3600 and 60 used here coincides with Lean Euclidean
`Int.ediv`/`Int.emod`.  Byte strings from the container log stream are
modelled as `List Nat` (one `Nat` per byte).
-/

/-- Constant `RESTART_TIME = 2` (hours) from the source, line 24. -/
def RESTART_TIME : Int := 2

/-- Constant `MAX_RETRIES = 100` from the source, line 26. -/
def MAX_RETRIES : Nat := 100

/-- Constant `RETRY_DELAY = 3` (seconds) from the source, line 27. -/
def RETRY_DELAY : Nat := 3

/-- The readiness sentinel from `restart()`, source line 56 (`last_message`). -/
def sentinel_str : String :=
  "[S_API FAIL] Tried to access Steam interface SteamNetworkingUtils004 before SteamAPI_Init succeeded."

/-- The sentinel as a byte-level list, matching the `b"..."` literal. -/
def sentinel : List Nat := sentinel_str.toList.map Char.toNat

/-- Python `needle in hay` substring test on byte strings: some suffix of
`hay` has `needle` as a prefix. -/
def contains_sub (needle hay : List Nat) : Bool :=
  hay.tails.any fun t => needle.isPrefixOf t

/-- The readiness loop of `restart()` (source lines 57-60), scanning the
container log stream from line index `i` with `fuel` lines still available:
it stops at the first line containing `sentinel` and reports how many lines
it consumed (the stream itself, `container.logs(stream=True)`, is unbounded,
so `fuel` only bounds how far we unroll the loop). -/
def readiness_scan (stream : Nat → List Nat) : Nat → Nat → Option Nat
  | _, 0 => none
  | i, fuel + 1 =>
    if contains_sub sentinel (stream i) then some (i + 1)
    else readiness_scan stream (i + 1) fuel

/-- Number of log lines consumed by the readiness phase when it returns
within the first `fuel` lines of the stream. -/
def readiness_consumed (stream : Nat → List Nat) (fuel : Nat) : Option Nat :=
  readiness_scan stream 0 fuel

/-- A log line that does not contain the sentinel, for concrete runs. -/
def unrelated_line : List Nat := "palworld log line".toList.map Char.toNat

/-- Mutable state of `RestartManager` relevant to restart timing:
`next_start` plus the derived `hours`/`minutes`/`seconds` decomposition. -/
structure RMState where
  next_start : Int
  hours : Int
  minutes : Int
  seconds : Int
deriving DecidableEq

/-- `_set_new_restart_time` (source lines 72-74):
`next_start = now + timedelta(hours=RESTART_TIME)`, i.e. `now + 7200` s. -/
def set_new_restart_time (now : Int) (s : RMState) : RMState :=
  { s with next_start := now + RESTART_TIME * 3600 }

/-- `_calculate_restart_time` (source lines 76-81): `divmod` decomposition of
`next_start - now` into hours, minutes, seconds.  Python `divmod` is floor
division; for the positive divisors 3600 and 60 that is `Int.ediv`/`Int.emod`. -/
def calculate_restart_time (now : Int) (s : RMState) : RMState :=
  let total_seconds := s.next_start - now
  { s with
    hours := total_seconds / 3600
    minutes := total_seconds % 3600 / 60
    seconds := total_seconds % 3600 % 60 }

/-- State effect of `__init__` (source lines 40-49) at start time `t0`:
the timing fields start unset (modelled as 0), then
`_set_new_restart_time` and `_calculate_restart_time` run. -/
def init_state (t0 : Int) : RMState :=
  calculate_restart_time t0 (set_new_restart_time t0 ⟨0, 0, 0, 0⟩)

/-- State effect of the reschedule tail of `restart()` (source lines 61-62)
at completion time `t`: `_set_new_restart_time` then `_calculate_restart_time`. -/
def restart_effect (t : Int) (s : RMState) : RMState :=
  calculate_restart_time t (set_new_restart_time t s)

/-- The broadcast message built by `notify_restart` (source lines 68-70),
including the singular/plural unit choice. -/
def notify_message (s : RMState) : String :=
  "server_restart_in_" ++ toString s.hours ++ (if s.hours = 1 then "hr" else "hrs")
    ++ "_" ++ toString s.minutes ++ (if s.minutes = 1 then "min" else "mins")

/-- `notify_restart` (source lines 66-70): recompute the decomposition from
`next_start`, then broadcast the formatted message.  Returns the new state and
the message handed to `_broadcast`. -/
def notify_restart (now : Int) (s : RMState) : RMState × String :=
  let s' := calculate_restart_time now s
  (s', notify_message s')

/-- State part of `notify_restart`. -/
def notify_effect (now : Int) (s : RMState) : RMState :=
  (notify_restart now s).1

/-- A sequence of `notify_restart` calls at the given times, folded over the
state. -/
def notify_seq (ts : List Int) (s : RMState) : RMState :=
  ts.foldl (fun acc t => notify_effect t acc) s

/-- Recomposition of the stored `timeRemaining` triple into seconds. -/
def time_remaining_total (s : RMState) : Int :=
  s.hours * 3600 + s.minutes * 60 + s.seconds

/-- Reachable configurations `(current time, state)` of the manager after
initialization: time passes one poll tick at a time (the scheduler loop,
source lines 182-184), `notify_restart` may run at the current time, and a
restart may complete at any time `t'` not before it was due to start. -/
inductive Reachable : Int → RMState → Prop where
  | init (t0 : Int) : Reachable t0 (init_state t0)
  | tick (t : Int) (s : RMState) : Reachable t s → Reachable (t + 1) s
  | notify (t : Int) (s : RMState) : Reachable t s → Reachable t (notify_effect t s)
  | restartStep (t t' : Int) (s : RMState) :
      Reachable t s → t ≤ t' → Reachable t' (restart_effect t' s)

/-- Environment configuration loaded at process start (source lines 18-20):
`RCON_IP`, `RCON_PORT` and `RCON_PASSWORD`. -/
structure Config where
  rcon_ip : String
  rcon_port : String
  rcon_password : String
deriving DecidableEq

/-- The keyword arguments of one `Console(...)` construction; a field is
`none` when the corresponding keyword argument is not passed at the call. -/
structure ConsoleCall where
  host : Option String
  port : Option String
  password : Option String
deriving DecidableEq

/-- The `Console(host=RCON_IP, password=RCON_PASSWORD)` construction on
source line 138: the `host` and `password` keywords are supplied from the
configuration, and no `port` keyword is passed. -/
def console_call (cfg : Config) : ConsoleCall :=
  { host := some cfg.rcon_ip, port := none, password := some cfg.rcon_password }

/-- Observable events of `_create_rcon_connection` (source lines 134-151):
a connection attempt with the `Console` arguments it passes, a
`time.sleep` of the given duration, or the final re-`raise`. -/
inductive ConnEvent where
  | attempt (call : ConsoleCall)
  | sleep (d : Nat)
  | raiseErr
deriving DecidableEq

/-- `_create_rcon_connection` (source lines 134-151) as a trace function.
`outcome k` tells whether the `k`-th attempt (construction plus `"info"`
probe) succeeds; the second `Nat` argument is the remaining `retries`
budget (initially `MAX_RETRIES`).  Returns the event trace and `true` when
the call returns normally, `false` when it re-raises after exhausting the
budget.  On a failure with budget left the code sleeps `RETRY_DELAY` and
loops; on the last failure it raises without sleeping. -/
def create_rcon_connection (cfg : Config) (outcome : Nat → Bool) :
    Nat → Nat → List ConnEvent × Bool
  | _, 0 => ([], true)
  | k, 1 =>
    if outcome k then ([ConnEvent.attempt (console_call cfg)], true)
    else ([ConnEvent.attempt (console_call cfg), ConnEvent.raiseErr], false)
  | k, r + 2 =>
    if outcome k then ([ConnEvent.attempt (console_call cfg)], true)
    else
      let rest := create_rcon_connection cfg outcome (k + 1) (r + 1)
      (ConnEvent.attempt (console_call cfg) :: ConnEvent.sleep RETRY_DELAY :: rest.1,
        rest.2)

/-- Whether a connection event is an attempt. -/
def is_attempt_event : ConnEvent → Bool
  | ConnEvent.attempt _ => true
  | _ => false

/-- Whether a connection event is a sleep. -/
def is_sleep_event : ConnEvent → Bool
  | ConnEvent.sleep _ => true
  | _ => false

/-- Number of connection attempts in a trace. -/
def count_attempts (evs : List ConnEvent) : Nat := evs.countP is_attempt_event

/-- Number of sleeps in a trace. -/
def count_sleeps (evs : List ConnEvent) : Nat := evs.countP is_sleep_event

/-- `_is_container_running` (source lines 114-116). -/
def is_container_running (status : String) : Bool := status == "running"

/-- Observable events of `_establish_rcon_connection`: the
"Container not running" error log, or an inner `_create_rcon_connection`
event. -/
inductive EstEvent where
  | errNotRunning
  | conn (e : ConnEvent)
deriving DecidableEq

/-- Whether an establish-phase event is a connection attempt. -/
def est_is_attempt : EstEvent → Bool
  | EstEvent.conn (ConnEvent.attempt _) => true
  | _ => false

/-- Whether an establish-phase event is the not-running error log. -/
def est_is_error_log : EstEvent → Bool
  | EstEvent.errNotRunning => true
  | _ => false

/-- `_establish_rcon_connection` (source lines 118-124) as a trace function.
`status` is the container status string; `rconLive` is `none` when
`self.rcon is None` and `some live` when the liveness probe
(`_is_rcon_connected`) would report `live`.  Returns the event trace and
`true` when the call returns normally (`false` only when the inner connect
raises). -/
def establish_rcon_connection (cfg : Config) (status : String)
    (rconLive : Option Bool) (outcome : Nat → Bool) : List EstEvent × Bool :=
  if is_container_running status = false then ([EstEvent.errNotRunning], true)
  else
    match rconLive with
    | none =>
      let r := create_rcon_connection cfg outcome 0 MAX_RETRIES
      (r.1.map EstEvent.conn, r.2)
    | some live =>
      if live then ([], true)
      else
        let r := create_rcon_connection cfg outcome 0 MAX_RETRIES
        (r.1.map EstEvent.conn, r.2)

/-- Observable events of `_init_countdown` (source lines 83-92): a broadcast
attempt carrying the message handed to `_broadcast` together with whether
that attempt fails inside `_broadcast` (failures are caught there, source
lines 96-102), or a `time.sleep` of the given duration. -/
inductive CdEvent where
  | broadcast (msg : String) (failed : Bool)
  | sleep (d : Nat)
deriving DecidableEq

/-- The `while count >= 0` loop of `_init_countdown` with `count = n`:
for positive counts it broadcasts `server_restarting_in_<count>_secs`, at
count 0 it broadcasts `server_restarting_NOW!`; each iteration ends with
`time.sleep(1)`. -/
def countdown_loop (fail : String → Bool) : Nat → List CdEvent
  | 0 =>
    [CdEvent.broadcast "server_restarting_NOW!" (fail "server_restarting_NOW!"),
      CdEvent.sleep 1]
  | n + 1 =>
    let msg := "server_restarting_in_" ++ toString (n + 1) ++ "_secs"
    CdEvent.broadcast msg (fail msg) :: CdEvent.sleep 1 :: countdown_loop fail n

/-- `_init_countdown` (source lines 83-92): the loop starting at `count = 5`
followed by the trailing `time.sleep(2)`. -/
def init_countdown (fail : String → Bool) : List CdEvent :=
  countdown_loop fail 5 ++ [CdEvent.sleep 2]

/-- The sequence of broadcast messages attempted by a countdown trace. -/
def broadcasts_of (evs : List CdEvent) : List String :=
  evs.filterMap fun e =>
    match e with
    | CdEvent.broadcast m _ => some m
    | CdEvent.sleep _ => none

/-- Total duration of the sleeps that follow the last broadcast of a trace. -/
def trailing_sleep_total (evs : List CdEvent) : Nat :=
  ((evs.reverse.takeWhile fun e =>
      match e with
      | CdEvent.sleep _ => true
      | CdEvent.broadcast _ _ => false).filterMap fun e =>
    match e with
    | CdEvent.sleep d => some d
    | CdEvent.broadcast _ _ => none).sum

/-- If no line of the stream contains the sentinel, the readiness loop never
stops, no matter how far it is unrolled. -/
theorem readiness_scan_of_none (stream : Nat → List Nat)
    (h : ∀ i, contains_sub sentinel (stream i) = false) :
    ∀ fuel i, readiness_scan stream i fuel = none := by
  intro fuel
  induction fuel with
  | zero => intro i; rfl
  | succ n ih => intro i; simp [readiness_scan, h i, ih]

/-- If line `k` is the first line of the stream containing the sentinel, the
readiness loop started at line `i ≤ k` stops there having consumed `k + 1`
lines, provided it is unrolled past line `k`. -/
theorem readiness_scan_finds (stream : Nat → List Nat) :
    ∀ fuel i k, i ≤ k → k < i + fuel →
      (∀ j, i ≤ j → j < k → contains_sub sentinel (stream j) = false) →
      contains_sub sentinel (stream k) = true →
      readiness_scan stream i fuel = some (k + 1) := by
  intro fuel
  induction fuel with
  | zero => intro i k h1 h2 _ _; omega
  | succ n ih =>
    intro i k h1 h2 hpre hk
    rcases Nat.eq_or_lt_of_le h1 with rfl | hlt
    · simp [readiness_scan, hk]
    · have hi : contains_sub sentinel (stream i) = false := hpre i le_rfl hlt
      simp only [readiness_scan, hi, Bool.false_eq_true, if_false]
      exact ih (i + 1) k hlt (by omega) (fun j hj1 hj2 => hpre j (by omega) hj2) hk

/-- Claim C1: the readiness phase of `restart()` reads log lines in order and
returns the instant it sees a line containing the sentinel byte substring,
consuming exactly the prefix up to and including the first sentinel line;
on a stream none of whose lines contains the sentinel it never returns
(no amount of unrolling makes it stop). -/
theorem readiness_phase_spec :
    (∀ (stream : Nat → List Nat) (k : Nat),
        (∀ i, i < k → contains_sub sentinel (stream i) = false) →
        contains_sub sentinel (stream k) = true →
        ∀ fuel, k < fuel → readiness_consumed stream fuel = some (k + 1)) ∧
    (∀ stream : Nat → List Nat,
        (∀ i, contains_sub sentinel (stream i) = false) →
        ∀ fuel, readiness_consumed stream fuel = none) := by
  constructor
  · intro stream k hpre hk fuel hfuel
    exact readiness_scan_finds stream fuel 0 k (Nat.zero_le k) (by omega)
      (fun j _ hj => hpre j hj) hk
  · intro stream h fuel
    exact readiness_scan_of_none stream h fuel 0

/-- Witness for C1: a stream of 10 unrelated lines followed by the sentinel
line makes the readiness phase consume exactly 11 lines; a stream of only
unrelated lines never makes it return. -/
theorem readiness_phase_spec_witness :
    readiness_consumed (fun i => if i == 10 then sentinel else unrelated_line) 20 = some 11 ∧
    readiness_consumed (fun _ => unrelated_line) 50 = none := by
  constructor
  · exact readiness_phase_spec.1 (fun i => if i == 10 then sentinel else unrelated_line) 10
      (by decide) (by decide) 20 (by decide)
  · exact readiness_phase_spec.2 (fun _ => unrelated_line)
      (fun _ => (by decide : contains_sub sentinel unrelated_line = false)) 50

/-- When every attempt fails, the connect loop entered with budget `n + 1`
produces `n` failure-and-sleep rounds followed by a final failing attempt
and the re-raise. -/
theorem create_all_fail_shape (cfg : Config) :
    ∀ n k, create_rcon_connection cfg (fun _ => false) k (n + 1)
      = ((List.replicate n
            [ConnEvent.attempt (console_call cfg), ConnEvent.sleep RETRY_DELAY]).flatten
          ++ [ConnEvent.attempt (console_call cfg), ConnEvent.raiseErr], false) := by
  intro n
  induction n with
  | zero => intro k; simp [create_rcon_connection]
  | succ m ih =>
    intro k
    simp [create_rcon_connection, ih (k + 1), List.replicate_succ]

/-- Attempt and sleep counts of the all-failures trace shape. -/
theorem all_fail_shape_counts (c : ConsoleCall) :
    ∀ n : Nat,
      count_attempts ((List.replicate n [ConnEvent.attempt c, ConnEvent.sleep RETRY_DELAY]).flatten
          ++ [ConnEvent.attempt c, ConnEvent.raiseErr]) = n + 1 ∧
      count_sleeps ((List.replicate n [ConnEvent.attempt c, ConnEvent.sleep RETRY_DELAY]).flatten
          ++ [ConnEvent.attempt c, ConnEvent.raiseErr]) = n := by
  intro n
  induction n with
  | zero => exact ⟨rfl, rfl⟩
  | succ m ih =>
    constructor
    · have h1 := ih.1
      simp only [count_attempts, List.replicate_succ, List.flatten_cons, List.cons_append,
        List.countP_cons, List.countP_append] at h1 ⊢
      simp [is_attempt_event] at h1 ⊢
    · have h2 := ih.2
      simp only [count_sleeps, List.replicate_succ, List.flatten_cons, List.cons_append,
        List.countP_cons, List.countP_append] at h2 ⊢
      simp [is_sleep_event] at h2 ⊢

/-- Claim C2: when every connection attempt fails, `_create_rcon_connection`
performs exactly `MAX_RETRIES` (100) attempts, sleeps `RETRY_DELAY` (3)
between consecutive attempts but not after the last one (the trace is 99
attempt-sleep rounds, then the last attempt immediately followed by the
re-raise), and raises the fatal error to the caller. -/
theorem connect_exhausts_retries (cfg : Config) :
    (create_rcon_connection cfg (fun _ => false) 0 MAX_RETRIES).1
      = ((List.replicate (MAX_RETRIES - 1)
            [ConnEvent.attempt (console_call cfg), ConnEvent.sleep RETRY_DELAY]).flatten
          ++ [ConnEvent.attempt (console_call cfg), ConnEvent.raiseErr]) ∧
    count_attempts (create_rcon_connection cfg (fun _ => false) 0 MAX_RETRIES).1
      = MAX_RETRIES ∧
    count_sleeps (create_rcon_connection cfg (fun _ => false) 0 MAX_RETRIES).1
      = MAX_RETRIES - 1 ∧
    (create_rcon_connection cfg (fun _ => false) 0 MAX_RETRIES).2 = false := by
  have hshape := create_all_fail_shape cfg 99 0
  have hcounts := all_fail_shape_counts (console_call cfg) 99
  have hM : MAX_RETRIES = 99 + 1 := rfl
  rw [hM]
  refine ⟨?_, ?_, ?_, ?_⟩
  · rw [hshape]
  · rw [hshape]; exact hcounts.1
  · rw [hshape]; exact hcounts.2
  · rw [hshape]

/-- Claim C3: immediately after the reschedule tail of `restart()` runs at
completion time `t`, `next_start` equals `t` plus exactly the restart
interval `RESTART_TIME` hours, i.e. exactly 7200 seconds, to the second. -/
theorem restart_reschedules_exact_interval (t : Int) (s : RMState) :
    (restart_effect t s).next_start = t + RESTART_TIME * 3600 ∧
    (restart_effect t s).next_start - t = 7200 := by
  constructor <;>
    simp [restart_effect, calculate_restart_time, set_new_restart_time, RESTART_TIME]

/-- Claim C4: the countdown phase attempts broadcasts in the exact order
5, 4, 3, 2, 1 seconds and then the NOW message, with no count skipped or
reordered, whatever the failure behaviour of the individual broadcasts
(failures are caught inside `_broadcast` and only logged). -/
theorem countdown_broadcast_order (fail : String → Bool) :
    broadcasts_of (init_countdown fail) =
      ["server_restarting_in_5_secs", "server_restarting_in_4_secs",
       "server_restarting_in_3_secs", "server_restarting_in_2_secs",
       "server_restarting_in_1_secs", "server_restarting_NOW!"] := rfl

/-- Counterexample to claim C5: after the `server_restarting_NOW!` broadcast
the countdown does not wait exactly 2 time units before proceeding; the loop
body still sleeps 1 unit after the NOW broadcast and only then does the
2-unit grace sleep run, so 3 units pass. -/
theorem countdown_grace_counterexample :
    trailing_sleep_total (init_countdown fun _ => false) = 3 ∧
    ¬ trailing_sleep_total (init_countdown fun _ => false) = 2 := by
  constructor <;> decide

/-- Claim C5 (amended): the wait between consecutive broadcasts is exactly
1 time unit, and after the `server_restarting_NOW!` broadcast the phase
waits the final 1-unit loop sleep plus the fixed 2-unit grace period —
3 time units in total — before proceeding. -/
theorem countdown_timing_amended (fail : String → Bool) :
    init_countdown fail =
      [CdEvent.broadcast "server_restarting_in_5_secs" (fail "server_restarting_in_5_secs"),
       CdEvent.sleep 1,
       CdEvent.broadcast "server_restarting_in_4_secs" (fail "server_restarting_in_4_secs"),
       CdEvent.sleep 1,
       CdEvent.broadcast "server_restarting_in_3_secs" (fail "server_restarting_in_3_secs"),
       CdEvent.sleep 1,
       CdEvent.broadcast "server_restarting_in_2_secs" (fail "server_restarting_in_2_secs"),
       CdEvent.sleep 1,
       CdEvent.broadcast "server_restarting_in_1_secs" (fail "server_restarting_in_1_secs"),
       CdEvent.sleep 1,
       CdEvent.broadcast "server_restarting_NOW!" (fail "server_restarting_NOW!"),
       CdEvent.sleep 1, CdEvent.sleep 2] ∧
    trailing_sleep_total (init_countdown fail) = 3 :=
  ⟨rfl, rfl⟩

/-- Time may pass by any number of scheduler ticks without changing the
state. -/
theorem Reachable.add_nat {t : Int} {s : RMState} (h : Reachable t s) :
    ∀ n : Nat, Reachable (t + n) s := by
  intro n
  induction n with
  | zero => simpa using h
  | succ m ih =>
    have h2 : (t + ((m : Nat) + 1 : Nat) : Int) = (t + m) + 1 := by push_cast; ring
    rw [h2]
    exact Reachable.tick _ _ ih

/-- Counterexample to claim C6: `next_start` is not strictly in the future
at every reachable configuration — after initialization at time 0 the
scheduler can tick 7200 times without a restart completing, reaching time
7200 while `next_start` is still 7200. -/
theorem next_start_not_always_future :
    ¬ (∀ (t : Int) (s : RMState), Reachable t s → t < s.next_start) := by
  intro hall
  have hr : Reachable ((0 : Int) + (7200 : Nat)) (init_state 0) :=
    (Reachable.init 0).add_nat 7200
  have hr' : Reachable 7200 (init_state 0) := by
    norm_num at hr
    exact hr
  have hlt := hall 7200 (init_state 0) hr'
  have hns : (init_state 0).next_start = 7200 := by
    simp [init_state, calculate_restart_time, set_new_restart_time, RESTART_TIME]
  rw [hns] at hlt
  exact lt_irrefl 7200 hlt

/-- Claim C6 (amended): `next_start` is strictly in the future at the moment
it is set — at initialization and immediately after every completed restart,
where it is recomputed as the completion time plus the restart interval —
although time may later reach or pass it before the next restart completes. -/
theorem next_start_future_when_set (t : Int) (s : RMState) :
    (restart_effect t s).next_start = t + RESTART_TIME * 3600 ∧
    t < (restart_effect t s).next_start ∧
    t < (init_state t).next_start := by
  refine ⟨?_, ?_, ?_⟩ <;>
    simp [restart_effect, init_state, calculate_restart_time, set_new_restart_time,
      RESTART_TIME]

/-- `_calculate_restart_time` leaves `next_start` unchanged. -/
theorem calculate_keeps_next_start (now : Int) (s : RMState) :
    (calculate_restart_time now s).next_start = s.next_start := rfl

/-- The recomposed `timeRemaining` triple after `_calculate_restart_time`
equals `next_start - now` exactly (the `divmod` decomposition loses
nothing). -/
theorem calculate_total_seconds (now : Int) (s : RMState) :
    time_remaining_total (calculate_restart_time now s) = s.next_start - now := by
  simp only [time_remaining_total, calculate_restart_time]
  omega

/-- Any sequence of `notify_restart` calls leaves `next_start` unchanged. -/
theorem notify_seq_keeps_next_start :
    ∀ (ts : List Int) (s : RMState), (notify_seq ts s).next_start = s.next_start := by
  intro ts
  induction ts with
  | nil => intro s; rfl
  | cons t ts ih =>
    intro s
    have hstep : notify_seq (t :: ts) s = notify_seq ts (notify_effect t s) := rfl
    rw [hstep, ih]
    rfl

/-- Claim C7: `notify_restart` never mutates `next_start` (nor does any
sequence of such calls), and between two restarts the recomputed
`timeRemaining` values of successive `notify_restart` calls are
monotonically non-increasing. -/
theorem notify_frame_and_monotone (s : RMState) (t1 t2 : Int) (h : t1 ≤ t2) :
    (notify_restart t1 s).1.next_start = s.next_start ∧
    (∀ ts : List Int, (notify_seq ts s).next_start = s.next_start) ∧
    time_remaining_total ((notify_restart t2 (notify_restart t1 s).1).1)
      ≤ time_remaining_total ((notify_restart t1 s).1) := by
  refine ⟨rfl, fun ts => notify_seq_keeps_next_start ts s, ?_⟩
  have h1 : time_remaining_total ((notify_restart t1 s).1) = s.next_start - t1 :=
    calculate_total_seconds t1 s
  have h2 : time_remaining_total ((notify_restart t2 (notify_restart t1 s).1).1)
      = (notify_restart t1 s).1.next_start - t2 :=
    calculate_total_seconds t2 (notify_restart t1 s).1
  have h3 : (notify_restart t1 s).1.next_start = s.next_start := rfl
  rw [h1, h2, h3]
  omega

/-- Witness for C7 at `next_start = 7200` with calls at times 0 and 5. -/
theorem notify_frame_and_monotone_witness :
    (0 : Int) ≤ 5 ∧
    ((notify_restart 0 ⟨7200, 0, 0, 0⟩).1.next_start = (⟨7200, 0, 0, 0⟩ : RMState).next_start ∧
     (∀ ts : List Int,
        (notify_seq ts ⟨7200, 0, 0, 0⟩).next_start = (⟨7200, 0, 0, 0⟩ : RMState).next_start) ∧
     time_remaining_total ((notify_restart 5 (notify_restart 0 ⟨7200, 0, 0, 0⟩).1).1)
       ≤ time_remaining_total ((notify_restart 0 ⟨7200, 0, 0, 0⟩).1)) :=
  ⟨by norm_num, notify_frame_and_monotone ⟨7200, 0, 0, 0⟩ 0 5 (by norm_num)⟩

/-- Claim C8: when the container reports not-running,
`_establish_rcon_connection` performs zero connection attempts, logs exactly
one error, and returns normally (no failure signal to the caller). -/
theorem establish_skips_when_not_running (cfg : Config) (status : String)
    (rconLive : Option Bool) (outcome : Nat → Bool)
    (h : is_container_running status = false) :
    establish_rcon_connection cfg status rconLive outcome
      = ([EstEvent.errNotRunning], true) ∧
    (establish_rcon_connection cfg status rconLive outcome).1.countP est_is_attempt = 0 ∧
    (establish_rcon_connection cfg status rconLive outcome).1.countP est_is_error_log = 1 ∧
    (establish_rcon_connection cfg status rconLive outcome).2 = true := by
  have he : establish_rcon_connection cfg status rconLive outcome
      = ([EstEvent.errNotRunning], true) := by
    simp [establish_rcon_connection, h]
  refine ⟨he, ?_, ?_, ?_⟩ <;> rw [he] <;> rfl

/-- Witness for C8 on a container whose status reads `exited`. -/
theorem establish_skips_when_not_running_witness :
    is_container_running "exited" = false ∧
    (establish_rcon_connection ⟨"198.51.100.7", "8211", "adminpw"⟩ "exited" none
        (fun _ => false) = ([EstEvent.errNotRunning], true) ∧
     (establish_rcon_connection ⟨"198.51.100.7", "8211", "adminpw"⟩ "exited" none
        (fun _ => false)).1.countP est_is_attempt = 0 ∧
     (establish_rcon_connection ⟨"198.51.100.7", "8211", "adminpw"⟩ "exited" none
        (fun _ => false)).1.countP est_is_error_log = 1 ∧
     (establish_rcon_connection ⟨"198.51.100.7", "8211", "adminpw"⟩ "exited" none
        (fun _ => false)).2 = true) :=
  ⟨by decide, establish_skips_when_not_running ⟨"198.51.100.7", "8211", "adminpw"⟩ "exited"
    none (fun _ => false) (by decide)⟩

/-- Claim C9 (code bug evidence): every `Console` construction made by
`_create_rcon_connection` passes the configured host and password but no
port keyword at all — in particular, with `RCON_PORT` configured as `9999`
the attempted call still carries no port, so the claim that all three
configured parameters are used fails on the code. -/
theorem console_call_omits_configured_port :
    (∀ cfg : Config,
        (console_call cfg).port = none ∧
        (console_call cfg).host = some cfg.rcon_ip ∧
        (console_call cfg).password = some cfg.rcon_password) ∧
    (console_call ⟨"10.0.0.5", "9999", "secret"⟩).port
      ≠ some (Config.rcon_port ⟨"10.0.0.5", "9999", "secret"⟩) ∧
    (create_rcon_connection ⟨"10.0.0.5", "9999", "secret"⟩ (fun _ => false) 0
        MAX_RETRIES).1.head?
      = some (ConnEvent.attempt (console_call ⟨"10.0.0.5", "9999", "secret"⟩)) :=
  ⟨fun _ => ⟨rfl, rfl, rfl⟩, by decide, by decide⟩

/-- Claim C10: if `notify_restart` runs past `next_start`, the floor-division
decomposition yields a strictly negative `hours` with `minutes` still in
`[0, 59]`; concretely, 5 seconds past gives `hours = -1`, `minutes = 59`,
and the broadcast message carries the negative hour value verbatim. -/
theorem notify_past_deadline (s : RMState) (t : Int) (h : s.next_start < t) :
    (calculate_restart_time t s).hours < 0 ∧
    0 ≤ (calculate_restart_time t s).minutes ∧
    (calculate_restart_time t s).minutes ≤ 59 ∧
    (calculate_restart_time 5 ⟨0, 0, 0, 0⟩).hours = -1 ∧
    (calculate_restart_time 5 ⟨0, 0, 0, 0⟩).minutes = 59 ∧
    (notify_restart 5 ⟨0, 0, 0, 0⟩).2 = "server_restart_in_-1hrs_59mins" := by
  refine ⟨?_, ?_, ?_, by decide, by decide, by decide⟩ <;>
    simp only [calculate_restart_time] <;> omega

/-- Witness for C10 with `next_start = 0` and the call 5 seconds late. -/
theorem notify_past_deadline_witness :
    (⟨0, 0, 0, 0⟩ : RMState).next_start < 5 ∧
    ((calculate_restart_time 5 (⟨0, 0, 0, 0⟩ : RMState)).hours < 0 ∧
     0 ≤ (calculate_restart_time 5 (⟨0, 0, 0, 0⟩ : RMState)).minutes ∧
     (calculate_restart_time 5 (⟨0, 0, 0, 0⟩ : RMState)).minutes ≤ 59 ∧
     (calculate_restart_time 5 ⟨0, 0, 0, 0⟩).hours = -1 ∧
     (calculate_restart_time 5 ⟨0, 0, 0, 0⟩).minutes = 59 ∧
     (notify_restart 5 ⟨0, 0, 0, 0⟩).2 = "server_restart_in_-1hrs_59mins") :=
  ⟨by decide, notify_past_deadline ⟨0, 0, 0, 0⟩ 5 (by decide)⟩
